import Mathlib

/-!
Verification of the MCP Browser Inspector repository (src/src/index.ts).

The repository's single source file concatenates two revisions of the same
MCP server.  The first revision (lines 1-962) injects the "primary" in-page
selection engine: a toggle button, a dimming overlay, an info panel, a
modification dialog and a device-size picker, driven by document-level
mouseover and click listeners over the mutable flags
`isSelectionModeActive`, `isSelectionLocked`, `currentElement`,
`selectedElement`.  The second revision (lines 963-1799) injects the
"floating icon" engine: a floating icon, a toolbar, a resolution picker,
and a click-to-select flow that stores the selection record at click time
and opens a message dialog whose Send button stores only the message.

This file gives a shallow embedding of both engines, of the host-side tool
handlers (launch_browser / inspect_element / get_element_info /
modify_element / close_browser over the module-level `browser`, `page`,
`elementInfo` variables), of the injection bootstrap's document cleanup,
and of the two selector synthesizers, and proves or refutes the frozen
claims about them.
-/

namespace BrowserInspector

/-! ## The primary engine (first revision of index.ts)

Click and mouseover targets are classified once per event, in the order the
document-level handler tests them: toggle button, cancel button, submit
button, rest of the dialog, info panel, device picker (and its Apply Size
button, whose own listener stops propagation), the dimming overlay, the
highlight box, or an ordinary page element.  `E` is the type of page
elements. -/

inductive SurfKind : Type where
  | toggleS
  | cancelS
  | submitS
  | dialogS
  | panelS
  | deviceS
  | applyS
  | overlayS
  | highlightS
  deriving DecidableEq, Repr

/-- An element of the page: one of the engine's own surfaces, or an
ordinary page element drawn from `E`. -/
inductive AElem (E : Type) : Type where
  | surf (k : SurfKind)
  | page (e : E)
  deriving DecidableEq, Repr

/-- The record stored into `window.selectedElement` by
`submitModificationRequest`: the element reference together with its
selector, outerHTML, computed style and the trimmed request text. -/
structure ASelRecord (E : Type) where
  element : AElem E
  selector : String
  html : String
  css : String
  message : String
  deriving DecidableEq, Repr

/-- The engine-local state of the first revision: the flags
`isSelectionModeActive` and `isSelectionLocked`, the element references
`currentElement` and `selectedElement`, whether the modification dialog is
displayed, the textarea draft, and the page-global slot
`window.selectedElement`. -/
structure AState (E : Type) where
  active : Bool
  locked : Bool
  current : Option (AElem E)
  selected : Option (AElem E)
  dialogVisible : Bool
  draft : String
  slot : Option (ASelRecord E)
  deriving DecidableEq, Repr

/-- JavaScript whitespace as recognized by `String.prototype.trim`
(space, tab, line and paragraph separators; the common ASCII subset plus
no-break space). -/
def isJsWhitespace (c : Char) : Bool :=
  c = ' ' ∨ c = '\t' ∨ c = '\n' ∨ c = '\r' ∨ c = '\x0b' ∨ c = '\x0c' ∨
    c = '\u00A0'

/-- `String.prototype.trim`: strips leading and trailing whitespace. -/
def jsTrim (s : String) : String :=
  let cs := (s.toList).dropWhile isJsWhitespace
  String.mk ((cs.reverse.dropWhile isJsWhitespace).reverse)

/-- State right after injection: all flags reset (the injected script
re-declares them), dialog hidden, textarea empty.  The injection does not
touch `window.selectedElement`; on a fresh page it is absent. -/
def initA {E : Type} : AState E :=
  { active := false, locked := false, current := none, selected := none
    dialogVisible := false, draft := "", slot := none }

/-- `hideDialog()`: hides the dialog box and clears the textarea. -/
def hideDialogA {E : Type} (s : AState E) : AState E :=
  { s with dialogVisible := false, draft := "" }

/-- `submitModificationRequest()`: if an element is selected and the
trimmed textarea text is non-empty, store the record into
`window.selectedElement` and hide the dialog (which clears the textarea);
otherwise do nothing.  `selOf`, `htmlOf`, `cssOf` abstract
`getSelector(el)`, `el.outerHTML` and `getComputedStyle(el)`. -/
def submitA {E : Type} (selOf htmlOf cssOf : AElem E → String)
    (s : AState E) : AState E :=
  match s.selected with
  | some el =>
      let request := jsTrim s.draft
      if request ≠ "" then
        { s with slot := some ⟨el, selOf el, htmlOf el, cssOf el, request⟩
                 dialogVisible := false, draft := "" }
      else s
  | none => s

/-- `toggleSelectionMode()`: flips `isSelectionModeActive`; on enable it
resets `isSelectionLocked` and `selectedElement` and hides the dialog
(`currentElement` is left as it was); on disable it additionally clears
`currentElement` and hides the highlight. -/
def toggleA {E : Type} (s : AState E) : AState E :=
  if s.active then
    { s with active := false, locked := false, selected := none
             current := none, dialogVisible := false, draft := "" }
  else
    { s with active := true, locked := false, selected := none
             dialogVisible := false, draft := "" }

/-- The "selection is locked and the click landed outside the selected
element" branch of the click handler: unlock, clear the selection, hide
the dialog, and — unless the click landed on the overlay or the highlight
box — make the click target the new `currentElement`. -/
def unlockOutsideA {E : Type} [DecidableEq E] (t : AElem E) (s : AState E) :
    AState E :=
  let s1 := { s with locked := false, selected := none
                     dialogVisible := false, draft := "" }
  if t ≠ AElem.surf SurfKind.overlayS ∧ t ≠ AElem.surf SurfKind.highlightS then
    { s1 with current := some t }
  else s1

/-- The document-level click handler of the first revision, composed with
the element-level listeners that run first and stop propagation: the
Apply Size button only resizes the window (no selection state change), and
the Cancel and Submit buttons run their own handlers unconditionally.
`inside sel t` abstracts `sel === t || sel.contains(t)`. -/
def clickA {E : Type} [DecidableEq E]
    (inside : AElem E → AElem E → Bool)
    (selOf htmlOf cssOf : AElem E → String)
    (t : AElem E) (s : AState E) : AState E :=
  match t with
  | AElem.surf SurfKind.toggleS => toggleA s
  | AElem.surf SurfKind.applyS => s
  | AElem.surf SurfKind.cancelS => hideDialogA s
  | AElem.surf SurfKind.submitS => submitA selOf htmlOf cssOf s
  | t =>
    if s.active = false then s
    else
      match t with
      | AElem.surf SurfKind.dialogS => s
      | AElem.surf SurfKind.panelS => s
      | t =>
        if s.locked then
          match s.selected with
          | some sel =>
              if inside sel t then { s with dialogVisible := true }
              else unlockOutsideA t s
          | none => unlockOutsideA t s
        else
          match s.current with
          | some c => { s with locked := true, selected := some c }
          | none => s

/-- The document-level mouseover handler: inert unless selection mode is
active and unlocked; ignores the overlay, the info panel and its contents,
the dialog and its contents (including the Cancel and Submit buttons), the
toggle button and the highlight box; any other target (including the
device picker) becomes `currentElement`. -/
def mouseoverA {E : Type} (t : AElem E) (s : AState E) : AState E :=
  if s.active = false ∨ s.locked = true then s
  else
    match t with
    | AElem.surf SurfKind.overlayS => s
    | AElem.surf SurfKind.panelS => s
    | AElem.surf SurfKind.dialogS => s
    | AElem.surf SurfKind.cancelS => s
    | AElem.surf SurfKind.submitS => s
    | AElem.surf SurfKind.toggleS => s
    | AElem.surf SurfKind.highlightS => s
    | t => { s with current := some t }

/-- An event delivered to the first revision's engine. -/
inductive AEvent (E : Type) : Type where
  | click (t : AElem E)
  | mouseover (t : AElem E)
  deriving DecidableEq, Repr

def stepA {E : Type} [DecidableEq E]
    (inside : AElem E → AElem E → Bool)
    (selOf htmlOf cssOf : AElem E → String)
    (ev : AEvent E) (s : AState E) : AState E :=
  match ev with
  | AEvent.click t => clickA inside selOf htmlOf cssOf t s
  | AEvent.mouseover t => mouseoverA t s

def runClicksA {E : Type} [DecidableEq E]
    (inside : AElem E → AElem E → Bool)
    (selOf htmlOf cssOf : AElem E → String)
    (ts : List (AElem E)) (s : AState E) : AState E :=
  ts.foldl (fun s t => clickA inside selOf htmlOf cssOf t s) s

/-! ## The floating-icon engine (second revision of index.ts)

A target of its document-level listeners is either the floating icon, the
toolbar (with its two buttons), the resolution picker, or an ordinary page
element. -/

inductive BTarget (E : Type) : Type where
  | iconB
  | toolbarB
  | pickerB
  | pageB (e : E)
  deriving DecidableEq, Repr

/-- The record stored into `window.selectedElement` by the selecting click
of the floating-icon engine: selector, outerHTML and the computed-style
property map (no message — the Send button stores the message in the
separate slot `window.selectedElementMessage`). -/
structure BSelRecord where
  selector : String
  html : String
  css : String
  deriving DecidableEq, Repr

/-- State of the floating-icon engine: the toolbar/picker visibility
flags, `isSelectionModeActive`, the two page-global slots
`window.selectedElement` and `window.selectedElementMessage`, whether the
`mcp-dialog-box` node is in the document (and for which element), the
message textarea draft, and which element carries the hover highlight. -/
structure BState (E : Type) where
  toolbarVisible : Bool
  pickerVisible : Bool
  selActive : Bool
  slot : Option BSelRecord
  messageSlot : Option String
  dialogPresent : Bool
  dialogTarget : Option E
  draft : String
  highlightOn : Option E
  deriving DecidableEq, Repr

/-- State right after the floating-icon engine is injected. -/
def initB {E : Type} : BState E :=
  { toolbarVisible := false, pickerVisible := false, selActive := false
    slot := none, messageSlot := none, dialogPresent := false
    dialogTarget := none, draft := "", highlightOn := none }

/-- Click on the floating icon: toggles the toolbar. -/
def iconClickB {E : Type} (s : BState E) : BState E :=
  { s with toolbarVisible := !s.toolbarVisible }

/-- Click on the Change Resolution button: toggles the resolution
picker. -/
def resolutionClickB {E : Type} (s : BState E) : BState E :=
  { s with pickerVisible := !s.pickerVisible }

/-- Click on the Select Element button: toggles selection mode; on enable
the toolbar is hidden; on disable the hover highlight is removed.  (The
icon color changes are not tracked.) -/
def selectBtnClickB {E : Type} (s : BState E) : BState E :=
  if s.selActive then { s with selActive := false, highlightOn := none }
  else { s with selActive := true, toolbarVisible := false }

/-- The capture-phase mouseover listener added when selection mode is
enabled: while selection mode is active, moves the hover highlight to the
target. -/
def mouseoverB {E : Type} (t : E) (s : BState E) : BState E :=
  if s.selActive then { s with highlightOn := some t } else s

/-- The capture-phase click listener added when selection mode is
enabled: while selection mode is active, a click outside the icon, toolbar
and picker snapshots the target into `window.selectedElement` (selector,
outerHTML, computed styles), exits selection mode, removes the highlight
and creates the message dialog box.  `selOfB`, `htmlOfB`, `cssOfB`
abstract `getUniqueSelector(target)`, `target.outerHTML` and the computed
style map. -/
def clickSelectB {E : Type} (selOfB htmlOfB cssOfB : E → String)
    (t : BTarget E) (s : BState E) : BState E :=
  if s.selActive then
    match t with
    | BTarget.iconB => s
    | BTarget.toolbarB => s
    | BTarget.pickerB => s
    | BTarget.pageB e =>
        { s with slot := some ⟨selOfB e, htmlOfB e, cssOfB e⟩
                 selActive := false, highlightOn := none
                 dialogPresent := true, dialogTarget := some e, draft := "" }
  else s

/-- The `mcp-cancel-btn` handler: removes the dialog box (and restores the
target's background color, not tracked). -/
def cancelB {E : Type} (s : BState E) : BState E :=
  { s with dialogPresent := false, dialogTarget := none, draft := "" }

/-- The `mcp-send-btn` handler (lines 1646-1683): if the trimmed message
is non-empty it is stored into `window.selectedElementMessage` and a
transient notification is shown; then — unconditionally — the dialog box
is removed from the document. -/
def sendB {E : Type} (s : BState E) : BState E :=
  let message := jsTrim s.draft
  let s1 := if message ≠ "" then { s with messageSlot := some message } else s
  { s1 with dialogPresent := false, dialogTarget := none, draft := "" }

/-! ## The host-side tool handlers

The module-level variables `browser`, `page` and `elementInfo` are the
process-wide session state.  `browser` and `page` are always set and
cleared together, so the session is modelled as one optional page; the
page carries the two page-global slots and an abstract document `D`.
`CssObj` abstracts the computed-style object stored in the page slot and
`stringifyCss` abstracts `JSON.stringify` on it. -/

/-- The host-side cache `elementInfo` filled by `get_element_info`. -/
structure ElemInfo where
  selector : String
  html : String
  css : String
  deriving DecidableEq, Repr

/-- What the host reads out of `window.selectedElement`. -/
structure PageRecord (CssObj : Type) where
  selector : String
  html : String
  css : CssObj

/-- The in-page state visible to the host. -/
structure PageSt (CssObj D : Type) where
  slot : Option (PageRecord CssObj)
  dom : D

/-- The process-wide server state. -/
structure HostState (CssObj D : Type) where
  session : Option (PageSt CssObj D)
  elementInfo : Option ElemInfo

/-- State at server start: `browser = page = elementInfo = null`. -/
def hinit {CssObj D : Type} : HostState CssObj D :=
  { session := none, elementInfo := none }

/-- First text content and error flag of a tool result. -/
structure ToolResult where
  text : String
  isError : Bool
  deriving DecidableEq, Repr

def noElementText : String :=
  "No element selected. Please use the inspect_element tool and click on an element first."

def notLaunchedText : String :=
  "Browser is not launched. Please launch the browser first."

/-- `closeBrowser()`: if a browser is open, close it and null out
`browser`, `page` and `elementInfo`; otherwise do nothing. -/
def closeBrowserFn {CssObj D : Type} (s : HostState CssObj D) :
    HostState CssObj D :=
  match s.session with
  | some _ => { session := none, elementInfo := none }
  | none => s

/-- JavaScript truthiness of `args.url`: absent or empty string is
falsy. -/
def urlFalsy : Option String → Bool
  | none => true
  | some u => u = ""

/-- `launchBrowser(args)`: first closes any open browser, then rejects a
falsy url, otherwise opens a fresh page (whose `window.selectedElement`
slot is absent) navigated to the url.  `fresh` abstracts the navigated
document. -/
def launchBrowserFn {CssObj D : Type} (url : Option String) (fresh : D)
    (s : HostState CssObj D) : ToolResult × HostState CssObj D :=
  let s1 := match s.session with
    | some _ => closeBrowserFn s
    | none => s
  if urlFalsy url then
    (⟨"URL is required", true⟩, s1)
  else
    (⟨"Browser launched and navigated to " ++ url.getD "", false⟩,
      { s1 with session := some ⟨none, fresh⟩ })

/-- `inspectElement()`: fails if no browser is open; otherwise evaluates
the injection script in the page (`injectDom` abstracts its effect on the
document; it does not touch `window.selectedElement`). -/
def inspectElementFn {CssObj D : Type} (injectDom : D → D)
    (s : HostState CssObj D) : ToolResult × HostState CssObj D :=
  match s.session with
  | none => (⟨notLaunchedText, true⟩, s)
  | some p =>
      (⟨"Element inspection mode enabled. Click on any element in the browser to select it.", false⟩,
        { s with session := some { p with dom := injectDom p.dom } })

/-- `getElementInfo()`: fails if no browser is open or the page slot is
absent; on success caches selector, html and the stringified styles into
`elementInfo`. -/
def getElementInfoFn {CssObj D : Type} (stringifyCss : CssObj → String)
    (s : HostState CssObj D) : ToolResult × HostState CssObj D :=
  match s.session with
  | none => (⟨notLaunchedText, true⟩, s)
  | some p =>
      match p.slot with
      | none => (⟨noElementText, true⟩, s)
      | some r =>
          (⟨"Selected element: " ++ r.selector, false⟩,
            { s with elementInfo := some ⟨r.selector, r.html, stringifyCss r.css⟩ })

/-- `modifyElement(args)`: fails if no browser is open, then if
`elementInfo` was never cached; otherwise applies the css map and/or the
html replacement against `elementInfo.selector` in the page (`applyCssD`
and `applyHtmlD` abstract the two `page.evaluate` calls; an empty html
string is falsy and skipped). -/
def modifyElementFn {CssObj D : Type}
    (applyCssD : String → List (String × String) → D → D)
    (applyHtmlD : String → String → D → D)
    (css : Option (List (String × String))) (html : Option String)
    (s : HostState CssObj D) : ToolResult × HostState CssObj D :=
  match s.session with
  | none => (⟨notLaunchedText, true⟩, s)
  | some p =>
      match s.elementInfo with
      | none => (⟨noElementText, true⟩, s)
      | some info =>
          let d1 := match css with
            | some m => applyCssD info.selector m p.dom
            | none => p.dom
          let d2 := match html with
            | some h => if h = "" then d1 else applyHtmlD info.selector h d1
            | none => d1
          (⟨"Element " ++ info.selector ++ " modified successfully.", false⟩,
            { s with session := some { p with dom := d2 } })

/-- An in-page dialog submit committing a record into the page slot
(`window.selectedElement`), interleaved with the host's tool calls. -/
def commitRecordFn {CssObj D : Type} (r : PageRecord CssObj)
    (s : HostState CssObj D) : HostState CssObj D :=
  match s.session with
  | some p => { s with session := some { p with slot := some r } }
  | none => s

/-- One driver-level action: a tool call or an in-page commit. -/
inductive HAct (CssObj D : Type) : Type where
  | launch (url : Option String) (fresh : D)
  | inspect
  | getInfo
  | modify (css : Option (List (String × String))) (html : Option String)
  | closeB
  | commit (r : PageRecord CssObj)

def HAct.isCommit {CssObj D : Type} : HAct CssObj D → Bool
  | HAct.commit _ => true
  | _ => false

def hstep {CssObj D : Type} (stringifyCss : CssObj → String)
    (injectDom : D → D)
    (applyCssD : String → List (String × String) → D → D)
    (applyHtmlD : String → String → D → D) :
    HAct CssObj D → HostState CssObj D → HostState CssObj D
  | HAct.launch url fresh, s => (launchBrowserFn url fresh s).2
  | HAct.inspect, s => (inspectElementFn injectDom s).2
  | HAct.getInfo, s => (getElementInfoFn stringifyCss s).2
  | HAct.modify css html, s => (modifyElementFn applyCssD applyHtmlD css html s).2
  | HAct.closeB, s => closeBrowserFn s
  | HAct.commit r, s => commitRecordFn r s

def hrun {CssObj D : Type} (stringifyCss : CssObj → String)
    (injectDom : D → D)
    (applyCssD : String → List (String × String) → D → D)
    (applyHtmlD : String → String → D → D)
    (acts : List (HAct CssObj D)) (s : HostState CssObj D) :
    HostState CssObj D :=
  acts.foldl (fun s a => hstep stringifyCss injectDom applyCssD applyHtmlD a s) s

/-- Whether a `get_element_info` call issued in state `s` succeeds:
the browser is open and the page slot holds a record. -/
def giSucceeds {CssObj D : Type} (s : HostState CssObj D) : Bool :=
  match s.session with
  | some p => p.slot.isSome
  | none => false

/-- Folding a trace while tracking whether a `get_element_info` call has
succeeded since the last `launch_browser` or `close_browser`. -/
def giStep {CssObj D : Type} (stringifyCss : CssObj → String)
    (injectDom : D → D)
    (applyCssD : String → List (String × String) → D → D)
    (applyHtmlD : String → String → D → D) :
    HostState CssObj D × Bool → HAct CssObj D → HostState CssObj D × Bool
  | (s, f), a =>
      (hstep stringifyCss injectDom applyCssD applyHtmlD a s,
        match a with
        | HAct.getInfo => f || giSucceeds s
        | HAct.launch _ _ => false
        | HAct.closeB => false
        | _ => f)

/-! ## The injection bootstrap's document cleanup (first revision)

The document is modelled as the list of element ids of the engine's
injected top-level nodes, in insertion order.  `document.getElementById`
finds the first node with a given id and `remove()` deletes it. -/

/-- The `existingElements` removal list of the injection script. -/
def injectRemovalIds : List String :=
  ["mcp-inspector-overlay", "mcp-inspector-info", "mcp-inspector-dialog",
   "mcp-inspector-highlight", "mcp-toggle-button"]

/-- The ids of the nodes the injection script appends to the body, in
creation order.  The highlight box is created lazily on first hover, not
here; the device selector is created here. -/
def injectCreatedIds : List String :=
  ["mcp-inspector-overlay", "mcp-inspector-info", "mcp-inspector-dialog",
   "mcp-toggle-button", "mcp-device-selector"]

/-- `document.getElementById(id)?.remove()`: removes the first node with
the given id, if any. -/
def removeFirstId (i : String) : List String → List String
  | [] => []
  | x :: xs => if x = i then xs else x :: removeFirstId i xs

/-- One run of the injection script on the document: remove the nodes of
the removal list, then append the created nodes. -/
def injectEngineDoc (d : List String) : List String :=
  (injectRemovalIds.foldl (fun acc i => removeFirstId i acc) d) ++ injectCreatedIds

/-- `n` consecutive runs of the injection script. -/
def injectEngineDocN : Nat → List String → List String
  | 0, d => d
  | n + 1, d => injectEngineDocN n (injectEngineDoc d)

/-! ## z-indices of the first revision's surfaces (as set at creation) -/

/-- Un-positioned ordinary page content stacks at the auto level. -/
def pageContentZ : Nat := 0

/-- `overlay.style.zIndex = '9999'` -/
def overlayZ : Nat := 9999

/-- `infoPanel.style.zIndex = '10000'` -/
def infoPanelZ : Nat := 10000

/-- `dialogBox.style.zIndex = '10002'` -/
def dialogZ : Nat := 10002

/-- `toggleButton.style.zIndex = '10003'` -/
def toggleButtonZ : Nat := 10003

/-- `deviceSelector.style.zIndex = '10003'` -/
def deviceSelectorZ : Nat := 10003

/-- `box.style.zIndex = '2147483647'` in `createHighlightBox` -/
def highlightZ : Nat := 2147483647

/-! ## The selector synthesizers

A document tree: tag (stored lowercase, as `tagName.toLowerCase()`
renders it), id attribute (empty string when absent, as `element.id`
yields), class list, children.  An element is addressed by its root and
the reversed path of child indices (deepest index first), so that the
parent is addressed by the tail of the path. -/

inductive Dom : Type where
  | mk (tag : String) (idAttr : String) (classes : List String)
      (children : List Dom)

def Dom.tag : Dom → String
  | Dom.mk t _ _ _ => t

def Dom.idAttr : Dom → String
  | Dom.mk _ i _ _ => i

def Dom.classes : Dom → List String
  | Dom.mk _ _ c _ => c

def Dom.children : Dom → List Dom
  | Dom.mk _ _ _ cs => cs

/-- Node at a root-to-node path of child indices. -/
def nodeAt : List Nat → Dom → Option Dom
  | [], d => some d
  | i :: p, d => (d.children[i]?).bind (nodeAt p)

/-- `Array.from(parent.children).filter(c => c.tagName === tag).length`. -/
def sameTagCount (tag : String) (cs : List Dom) : Nat :=
  (cs.filter (fun c => c.tag = tag)).length

/-- The 0-based index of the child at position `i` within the list of its
parent's same-tag children — `siblings.indexOf(element)` for the element
at child position `i`. -/
def sameTagIndex (tag : String) (cs : List Dom) (i : Nat) : Nat :=
  ((cs.take i).filter (fun c => c.tag = tag)).length

/-- `getSelector` of the first revision: id wins, then tag plus all
classes, else the tag with a `:nth-child` index among the parent's
same-tag children when there is more than one — looking only at the
immediate parent, never recursing.  The element is given by its root and
reversed path; `none` on an invalid path. -/
def getSelectorA (root : Dom) (rp : List Nat) : Option String :=
  match rp with
  | [] =>
      if root.idAttr ≠ "" then some ("#" ++ root.idAttr)
      else if root.classes ≠ [] then
        some (root.tag ++ "." ++ String.intercalate "." root.classes)
      else some root.tag
  | i :: p =>
      match nodeAt p.reverse root with
      | none => none
      | some parent =>
          match parent.children[i]? with
          | none => none
          | some el =>
              if el.idAttr ≠ "" then some ("#" ++ el.idAttr)
              else if el.classes ≠ [] then
                some (el.tag ++ "." ++ String.intercalate "." el.classes)
              else if sameTagCount el.tag parent.children > 1 then
                some (el.tag ++ ":nth-child(" ++
                  toString (sameTagIndex el.tag parent.children i + 1) ++ ")")
              else some el.tag

/-- `getUniqueSelector` of the second revision: id wins, then `body`
stops the walk, an element with no parent yields its tag, and otherwise
the parent's selector is extended with ` > tag`, adding
`:nth-child(index + 1)` among the parent's same-tag children when there is
more than one — recursing on the parent. -/
def getUniqueSelectorB (root : Dom) : List Nat → Option String
  | [] =>
      if root.idAttr ≠ "" then some ("#" ++ root.idAttr)
      else if root.tag = "body" then some "body"
      else some root.tag
  | i :: p =>
      match nodeAt p.reverse root with
      | none => none
      | some parent =>
          match parent.children[i]? with
          | none => none
          | some el =>
              if el.idAttr ≠ "" then some ("#" ++ el.idAttr)
              else if el.tag = "body" then some "body"
              else
                match getUniqueSelectorB root p with
                | none => none
                | some ps =>
                    if sameTagCount el.tag parent.children = 1 then
                      some (ps ++ " > " ++ el.tag)
                    else
                      some (ps ++ " > " ++ el.tag ++ ":nth-child(" ++
                        toString (sameTagIndex el.tag parent.children i + 1) ++ ")")

/-- Modelled from the spec: §4.1 step 3 — "starting from the element,
walk up: at each level, if the element's parent has more than one child
sharing its tag name, append a positional index (`:nth-child(k)`, 1-based,
counting ALL children of that tag"; levels are joined with the child
combinator as in the captured selectors.  This reference definition is
used only to compare the two source synthesizers against the spec's
description of the walk. -/
def specWalkUpSelector (root : Dom) : List Nat → Option String
  | [] => some root.tag
  | i :: p =>
      match nodeAt p.reverse root with
      | none => none
      | some parent =>
          match parent.children[i]? with
          | none => none
          | some el =>
              match specWalkUpSelector root p with
              | none => none
              | some ps =>
                  if sameTagCount el.tag parent.children > 1 then
                    some (ps ++ " > " ++ el.tag ++ ":nth-child(" ++
                      toString (sameTagIndex el.tag parent.children i + 1) ++ ")")
                  else some (ps ++ " > " ++ el.tag)

/-! ## Claims -/

/-- Claim C2 (code_bug evidence): running the injection script twice on an
initially clean page leaves two live `mcp-device-selector` nodes — the
device selector's id is missing from the removal list — while each id on
the removal list is left with exactly one live instance.  This refutes
"running the Injection Bootstrap N times leaves exactly one live instance
of each named UI surface" at N = 2. -/
theorem c2_inject_duplicates_device_selector :
    (injectEngineDocN 2 []).count "mcp-device-selector" = 2 ∧
    (injectEngineDocN 2 []).count "mcp-inspector-overlay" = 1 ∧
    (injectEngineDocN 2 []).count "mcp-inspector-info" = 1 ∧
    (injectEngineDocN 2 []).count "mcp-inspector-dialog" = 1 ∧
    (injectEngineDocN 2 []).count "mcp-toggle-button" = 1 ∧
    ¬ ((injectEngineDocN 2 []).count "mcp-device-selector" = 1) := by
  decide

/-- Claim C8, counterexample: the claimed strict z-order demands the
highlight below the info panel, the dialog and the toggle button, but
`createHighlightBox` gives the highlight the maximum z-index 2147483647,
above all three. -/
theorem c8_highlight_not_below_surfaces :
    ¬ (highlightZ < infoPanelZ ∧ highlightZ < dialogZ ∧
       highlightZ < toggleButtonZ) := by
  decide

/-- Claim C8, amended: the highlight overlay renders above ordinary page
content and also above every one of the engine's own control surfaces —
the stacking order is page content < dimming overlay < info panel <
modal dialog < toggle button = device picker < highlight (maximum
z-index). -/
theorem c8_z_order :
    pageContentZ < overlayZ ∧ overlayZ < infoPanelZ ∧
    infoPanelZ < dialogZ ∧ dialogZ < toggleButtonZ ∧
    toggleButtonZ = deviceSelectorZ ∧ deviceSelectorZ < highlightZ := by
  decide

/-- A concrete page for the selector claims: a root `div` with two `div`
children, each holding two `span` children; no ids, no classes.  The
element under scrutiny is the second `span` of the second `div`
(reversed path `[1, 1]`). -/
def selectorDemoTree : Dom :=
  Dom.mk "div" "" []
    [Dom.mk "div" "" [] [Dom.mk "span" "" [] [], Dom.mk "span" "" [] []],
     Dom.mk "div" "" [] [Dom.mk "span" "" [] [], Dom.mk "span" "" [] []]]

/-- Claim C6, counterexample: on the demo tree the spec's walk-up rule
produces an index at both ambiguous levels, but the first revision's
`getSelector` looks only at the immediate parent and returns a single
`span:nth-child(2)` with no ancestor path, so the claim's description of
the synthesizer fails on it (the second revision's `getUniqueSelector`
does follow the walk). -/
theorem c6_getSelector_does_not_walk_up :
    getSelectorA selectorDemoTree [1, 1] = some "span:nth-child(2)" ∧
    specWalkUpSelector selectorDemoTree [1, 1] =
      some "div > div:nth-child(2) > span:nth-child(2)" ∧
    getUniqueSelectorB selectorDemoTree [1, 1] =
      some "div > div:nth-child(2) > span:nth-child(2)" ∧
    getSelectorA selectorDemoTree [1, 1] ≠
      specWalkUpSelector selectorDemoTree [1, 1] := by
  decide

/-- The page-selection part of the engine state is still at its
post-injection value: no current element, unlocked, nothing selected,
dialog hidden, empty slot. -/
def idleSelA {E : Type} (s : AState E) : Prop :=
  s.current = none ∧ s.locked = false ∧ s.selected = none ∧
    s.dialogVisible = false ∧ s.slot = none

theorem clickA_surf_idle {E : Type} [DecidableEq E]
    (inside : AElem E → AElem E → Bool)
    (selOf htmlOf cssOf : AElem E → String)
    (k : SurfKind) (s : AState E) (h : idleSelA s) :
    idleSelA (clickA inside selOf htmlOf cssOf (AElem.surf k) s) := by
  obtain ⟨h1, h2, h3, h4, h5⟩ := h
  cases k <;>
    simp only [clickA, toggleA, hideDialogA, submitA, idleSelA, h1, h2, h3,
      h4, h5] <;>
    first
      | (constructor <;> simp [h1, h2, h3, h4, h5])
      | (split <;> simp [h1, h2, h3, h4, h5])

theorem runClicksA_surf_idle {E : Type} [DecidableEq E]
    (inside : AElem E → AElem E → Bool)
    (selOf htmlOf cssOf : AElem E → String)
    (ks : List SurfKind) (s : AState E) (h : idleSelA s) :
    idleSelA (runClicksA inside selOf htmlOf cssOf (ks.map AElem.surf) s) := by
  induction ks generalizing s with
  | nil => simpa [runClicksA] using h
  | cons k ks ih =>
      simpa [runClicksA, List.foldl] using
        ih _ (clickA_surf_idle inside selOf htmlOf cssOf k s h)

theorem dialog_opens_only_from_locked_inside {E : Type} [DecidableEq E]
    (inside : AElem E → AElem E → Bool)
    (selOf htmlOf cssOf : AElem E → String)
    (s : AState E) (ev : AEvent E)
    (h : (stepA inside selOf htmlOf cssOf ev s).dialogVisible = true) :
    s.dialogVisible = true ∨
      ∃ t sel, ev = AEvent.click t ∧ s.active = true ∧ s.locked = true ∧
        s.selected = some sel ∧ inside sel t = true := by
  cases ev with
  | mouseover t =>
      left
      simp only [stepA, mouseoverA] at h
      split at h
      · exact h
      · cases t with
        | surf k => cases k <;> exact h
        | page e => exact h
  | click t =>
      cases t with
      | page e =>
          simp only [stepA, clickA] at h
          split at h
          · exact Or.inl h
          next hact =>
            split at h
            next hlocked =>
              split at h
              next sel hsel =>
                split at h
                next hin =>
                  exact Or.inr ⟨AElem.page e, sel, rfl,
                    by simpa using hact, hlocked, hsel, hin⟩
                next => simp [unlockOutsideA] at h
              next hsel => simp [unlockOutsideA] at h
            next hlocked =>
              split at h
              next c hc => exact Or.inl h
              next hc => exact Or.inl h
      | surf k =>
          cases k <;> simp only [stepA, clickA, toggleA, hideDialogA,
            submitA] at h
          case toggleS => split at h <;> simp at h
          case applyS => exact Or.inl h
          case cancelS => simp at h
          case submitS =>
              split at h
              next el hel =>
                split at h
                · simp at h
                · exact Or.inl h
              next hel => exact Or.inl h
          case dialogS => split at h <;> exact Or.inl h
          case panelS => split at h <;> exact Or.inl h
          all_goals
            (split at h
             · exact Or.inl h
             next hact =>
               split at h
               next hlocked =>
                 split at h
                 next sel hsel =>
                   split at h
                   next hin =>
                     exact Or.inr ⟨_, sel, rfl, by simpa using hact,
                       hlocked, hsel, hin⟩
                   next => simp [unlockOutsideA] at h
                 next hsel => simp [unlockOutsideA] at h
               next hlocked =>
                 split at h
                 next c hc => exact Or.inl h
                 next hc => exact Or.inl h)

/-- Claim C1: in the primary engine, along any sequence of click events
from the post-injection Idle state whose targets are engine surfaces only
(toggle button, info panel, dialog and its buttons, device picker, Apply
Size button, overlay, highlight), the dialog never opens and the
page-selection state never advances (current element, lock flag, selected
element, dialog visibility and the page-global slot all keep their Idle
values); and, for any single event at any state, the dialog can become
visible only through a click dispatched while the selection is locked
whose target is the locked element or one of its descendants. -/
theorem c1_state_machine_safety (E : Type) [DecidableEq E]
    (inside : AElem E → AElem E → Bool)
    (selOf htmlOf cssOf : AElem E → String) :
    (∀ ks : List SurfKind,
      (runClicksA inside selOf htmlOf cssOf (ks.map AElem.surf)
          initA).dialogVisible = false ∧
      (runClicksA inside selOf htmlOf cssOf (ks.map AElem.surf)
          initA).current = none ∧
      (runClicksA inside selOf htmlOf cssOf (ks.map AElem.surf)
          initA).locked = false ∧
      (runClicksA inside selOf htmlOf cssOf (ks.map AElem.surf)
          initA).selected = none ∧
      (runClicksA inside selOf htmlOf cssOf (ks.map AElem.surf)
          initA).slot = none) ∧
    (∀ (s : AState E) (ev : AEvent E),
      (stepA inside selOf htmlOf cssOf ev s).dialogVisible = true →
      s.dialogVisible = true ∨
        ∃ t sel, ev = AEvent.click t ∧ s.active = true ∧ s.locked = true ∧
          s.selected = some sel ∧ inside sel t = true) := by
  constructor
  · intro ks
    have h := runClicksA_surf_idle inside selOf htmlOf cssOf ks initA
      (by simp [idleSelA, initA])
    exact ⟨h.2.2.2.1, h.1, h.2.1, h.2.2.1, h.2.2.2.2⟩
  · exact fun s ev h =>
      dialog_opens_only_from_locked_inside inside selOf htmlOf cssOf s ev h

/-- A state with the dialog already visible, used to instantiate the
second half of the C1 theorem. -/
def c1WitnessState : AState Unit :=
  { initA with dialogVisible := true }

/-- Witness for C1 at concrete inputs: the surface-click sequence toggle,
device picker, cancel, submit from Idle ends with the dialog closed, and
the single-event characterization instantiated at a state whose dialog is
already open. -/
theorem c1_state_machine_safety_witness :
    (runClicksA (fun (_ _ : AElem Unit) => false) (fun _ => "") (fun _ => "")
        (fun _ => "")
        ([SurfKind.toggleS, SurfKind.deviceS, SurfKind.cancelS,
          SurfKind.submitS].map AElem.surf) initA).dialogVisible = false ∧
    (c1WitnessState.dialogVisible = true ∨
      ∃ t sel,
        (AEvent.mouseover (AElem.surf SurfKind.deviceS) : AEvent Unit) =
          AEvent.click t ∧
        c1WitnessState.active = true ∧ c1WitnessState.locked = true ∧
        c1WitnessState.selected = some sel ∧
        (fun (_ _ : AElem Unit) => false) sel t = true) :=
  ⟨((c1_state_machine_safety Unit (fun _ _ => false) (fun _ => "")
      (fun _ => "") (fun _ => "")).1
      [SurfKind.toggleS, SurfKind.deviceS, SurfKind.cancelS,
        SurfKind.submitS]).1,
   (c1_state_machine_safety Unit (fun _ _ => false) (fun _ => "")
      (fun _ => "") (fun _ => "")).2 c1WitnessState
      (AEvent.mouseover (AElem.surf SurfKind.deviceS)) (by decide)⟩

/-- A state in DialogOpen: selection locked on a page element, dialog
visible, a non-empty draft, no record committed yet. -/
def c3State : AState Unit :=
  { active := true, locked := true, current := some (AElem.page ())
    selected := some (AElem.page ()), dialogVisible := true
    draft := "make this red", slot := none }

/-- Claim C3, counterexample: submitting non-empty text from DialogOpen
commits the record, but the locked flag stays set and the selected
element stays set — the machine does not return to Idle and the selection
is not unlocked. -/
theorem c3_submit_keeps_selection_locked :
    ((submitA (fun _ => "#go") (fun _ => "<button>go</button>")
        (fun _ => "styles") c3State).slot).isSome = true ∧
    ¬ ((submitA (fun _ => "#go") (fun _ => "<button>go</button>")
          (fun _ => "styles") c3State).locked = false ∧
       (submitA (fun _ => "#go") (fun _ => "<button>go</button>")
          (fun _ => "styles") c3State).selected = none) := by
  decide

/-- Claim C3, amended: in DialogOpen, submitting text whose trimmed form
is non-empty writes the Selection Record wholesale into the page-global
slot and closes the dialog, but returns the machine to Locked(target):
the locked flag stays set and the selected element is retained, not
cleared. -/
theorem c3_submit_commits_record_stays_locked (E : Type) [DecidableEq E]
    (selOf htmlOf cssOf : AElem E → String) (s : AState E) (el : AElem E)
    (_hdlg : s.dialogVisible = true) (hlock : s.locked = true)
    (hsel : s.selected = some el) (hne : jsTrim s.draft ≠ "") :
    (submitA selOf htmlOf cssOf s).slot =
      some ⟨el, selOf el, htmlOf el, cssOf el, jsTrim s.draft⟩ ∧
    (submitA selOf htmlOf cssOf s).dialogVisible = false ∧
    (submitA selOf htmlOf cssOf s).locked = true ∧
    (submitA selOf htmlOf cssOf s).selected = some el ∧
    (submitA selOf htmlOf cssOf s).current = s.current := by
  simp [submitA, hsel, hne, hlock]

/-- Witness for the amended C3 at the concrete DialogOpen state. -/
theorem c3_submit_commits_record_stays_locked_witness :
    (submitA (fun _ => "#go") (fun _ => "<button>go</button>")
        (fun _ => "styles") c3State).slot =
      some ⟨AElem.page (), "#go", "<button>go</button>", "styles",
        "make this red"⟩ ∧
    (submitA (fun _ => "#go") (fun _ => "<button>go</button>")
        (fun _ => "styles") c3State).dialogVisible = false ∧
    (submitA (fun _ => "#go") (fun _ => "<button>go</button>")
        (fun _ => "styles") c3State).locked = true ∧
    (submitA (fun _ => "#go") (fun _ => "<button>go</button>")
        (fun _ => "styles") c3State).selected = some (AElem.page ()) ∧
    (submitA (fun _ => "#go") (fun _ => "<button>go</button>")
        (fun _ => "styles") c3State).current = c3State.current := by
  have h := c3_submit_commits_record_stays_locked Unit (fun _ => "#go")
    (fun _ => "<button>go</button>") (fun _ => "styles") c3State
    (AElem.page ()) (by decide) (by decide) (by decide) (by decide)
  simpa using h

/-- A floating-icon-engine state whose message dialog is open over a
committed click-time record, with a whitespace-only draft. -/
def c4State : BState Unit :=
  { initB with slot := some ⟨"#go", "<b>x</b>", "css"⟩
               dialogPresent := true, dialogTarget := some ()
               draft := "   " }

/-- Claim C4, counterexample: in the floating-icon engine, pressing Send
with a whitespace-only draft removes the dialog box from the document —
the machine does not stay in DialogOpen with the dialog still open. -/
theorem c4_empty_send_closes_dialog :
    c4State.dialogPresent = true ∧ jsTrim c4State.draft = "" ∧
    (sendB c4State).dialogPresent = false := by
  decide

/-- Claim C4, amended: submitting an empty or whitespace-only draft never
writes either page-global slot; in the primary engine the submit is a
complete no-op (the dialog stays open and the state is unchanged), while
in the floating-icon engine the record and message slots are unchanged
but the dialog box is removed. -/
theorem c4_empty_submit_writes_nothing (E : Type) [DecidableEq E]
    (selOf htmlOf cssOf : AElem E → String)
    (sa : AState E) (sb : BState E)
    (ha : jsTrim sa.draft = "") (hb : jsTrim sb.draft = "") :
    submitA selOf htmlOf cssOf sa = sa ∧
    (sendB sb).slot = sb.slot ∧
    (sendB sb).messageSlot = sb.messageSlot ∧
    (sendB sb).dialogPresent = false := by
  refine ⟨?_, ?_, ?_, ?_⟩
  · cases hsel : sa.selected <;> simp [submitA, hsel, ha]
  · simp [sendB, hb]
  · simp [sendB, hb]
  · simp [sendB, hb]

/-- Witness for the amended C4 at concrete states with whitespace-only
drafts in both engines. -/
theorem c4_empty_submit_writes_nothing_witness :
    submitA (fun _ => "#go") (fun _ => "h") (fun _ => "c")
        ({ c3State with draft := " " } : AState Unit) =
      { c3State with draft := " " } ∧
    (sendB c4State).slot = c4State.slot ∧
    (sendB c4State).messageSlot = c4State.messageSlot ∧
    (sendB c4State).dialogPresent = false :=
  c4_empty_submit_writes_nothing Unit (fun _ => "#go") (fun _ => "h")
    (fun _ => "c") { c3State with draft := " " } c4State (by decide)
    (by decide)

theorem unlockOutsideA_slot {E : Type} [DecidableEq E] (t : AElem E)
    (s : AState E) : (unlockOutsideA t s).slot = s.slot := by
  simp only [unlockOutsideA]
  split <;> rfl

/-- In the primary engine, a click changes the page-global slot only
through the Submit branch, and then it overwrites the slot wholesale with
the fresh record of the selected element. -/
theorem clickA_slot {E : Type} [DecidableEq E]
    (inside : AElem E → AElem E → Bool)
    (selOf htmlOf cssOf : AElem E → String)
    (t : AElem E) (s : AState E) :
    (clickA inside selOf htmlOf cssOf t s).slot = s.slot ∨
      (t = AElem.surf SurfKind.submitS ∧ ∃ el, s.selected = some el ∧
        jsTrim s.draft ≠ "" ∧
        (clickA inside selOf htmlOf cssOf t s).slot =
          some ⟨el, selOf el, htmlOf el, cssOf el, jsTrim s.draft⟩) := by
  cases t with
  | page e =>
      left
      simp only [clickA]
      split
      · rfl
      · split
        · split
          · split
            · rfl
            · exact unlockOutsideA_slot _ _
          · exact unlockOutsideA_slot _ _
        · split <;> rfl
  | surf k =>
      cases k
      case toggleS =>
          left
          simp only [clickA, toggleA]
          split <;> rfl
      case applyS => exact Or.inl rfl
      case cancelS => exact Or.inl rfl
      case submitS =>
          cases hsel : s.selected with
          | none =>
              left
              simp [clickA, submitA, hsel]
          | some el =>
              by_cases hr : jsTrim s.draft = ""
              · left
                simp [clickA, submitA, hsel, hr]
              · right
                refine ⟨rfl, el, rfl, hr, ?_⟩
                simp [clickA, submitA, hsel, hr]
      case dialogS =>
          left
          simp only [clickA]
          split <;> rfl
      case panelS =>
          left
          simp only [clickA]
          split <;> rfl
      all_goals
        (left
         simp only [clickA]
         split
         · rfl
         · split
           · split
             · split
               · rfl
               · exact unlockOutsideA_slot _ _
             · exact unlockOutsideA_slot _ _
           · split <;> rfl)

theorem mouseoverA_slot {E : Type} (t : AElem E) (s : AState E) :
    (mouseoverA t s).slot = s.slot := by
  simp only [mouseoverA]
  split
  · rfl
  · cases t with
    | surf k => cases k <;> rfl
    | page e => rfl

/-- A fresh floating-icon engine state with selection mode just enabled
and no record committed. -/
def c5State : BState Unit :=
  { initB with selActive := true }

/-- Claim C5, counterexample: in the floating-icon engine the first
selecting click itself writes the page-global Selection Record slot — no
dialog submit is involved. -/
theorem c5_selecting_click_writes_slot :
    c5State.slot = none ∧
    (clickSelectB (fun _ => "body > div") (fun _ => "<div>x</div>")
        (fun _ => "color: red") (BTarget.pageB ()) c5State).slot =
      some ⟨"body > div", "<div>x</div>", "color: red"⟩ := by
  decide

/-- Claim C5, amended: in the primary engine the Selection Record slot is
written only by a dialog submit, which overwrites it wholesale, and hover
never writes it; in the floating-icon engine the slot is instead written
wholesale by the first selecting click, while the Send button writes only
the separate message slot (when the trimmed message is non-empty) and
hover, cancel, the floating icon, the resolution button and the
Select Element button write neither slot. -/
theorem c5_slot_single_writer (E : Type) [DecidableEq E]
    (inside : AElem E → AElem E → Bool)
    (selOf htmlOf cssOf : AElem E → String)
    (selOfB htmlOfB cssOfB : E → String) :
    (∀ (t : AElem E) (s : AState E),
      (clickA inside selOf htmlOf cssOf t s).slot = s.slot ∨
        (t = AElem.surf SurfKind.submitS ∧ ∃ el, s.selected = some el ∧
          jsTrim s.draft ≠ "" ∧
          (clickA inside selOf htmlOf cssOf t s).slot =
            some ⟨el, selOf el, htmlOf el, cssOf el, jsTrim s.draft⟩)) ∧
    (∀ (t : AElem E) (s : AState E), (mouseoverA t s).slot = s.slot) ∧
    (∀ (t : BTarget E) (s : BState E),
      (clickSelectB selOfB htmlOfB cssOfB t s).slot = s.slot ∨
        (∃ e, t = BTarget.pageB e ∧ s.selActive = true ∧
          (clickSelectB selOfB htmlOfB cssOfB t s).slot =
            some ⟨selOfB e, htmlOfB e, cssOfB e⟩)) ∧
    (∀ s : BState E, (sendB s).slot = s.slot) ∧
    (∀ s : BState E, (sendB s).messageSlot =
      if jsTrim s.draft ≠ "" then some (jsTrim s.draft) else s.messageSlot) ∧
    (∀ s : BState E,
      (cancelB s).slot = s.slot ∧ (cancelB s).messageSlot = s.messageSlot) ∧
    (∀ s : BState E,
      (iconClickB s).slot = s.slot ∧
        (iconClickB s).messageSlot = s.messageSlot) ∧
    (∀ s : BState E,
      (resolutionClickB s).slot = s.slot ∧
        (resolutionClickB s).messageSlot = s.messageSlot) ∧
    (∀ s : BState E,
      (selectBtnClickB s).slot = s.slot ∧
        (selectBtnClickB s).messageSlot = s.messageSlot) ∧
    (∀ (t : E) (s : BState E),
      (mouseoverB t s).slot = s.slot ∧
        (mouseoverB t s).messageSlot = s.messageSlot) := by
  refine ⟨clickA_slot inside selOf htmlOf cssOf, mouseoverA_slot,
    ?_, ?_, ?_, ?_, ?_, ?_, ?_, ?_⟩
  · intro t s
    simp only [clickSelectB]
    split
    · cases t with
      | iconB => exact Or.inl rfl
      | toolbarB => exact Or.inl rfl
      | pickerB => exact Or.inl rfl
      | pageB e => exact Or.inr ⟨e, rfl, by assumption, rfl⟩
    · exact Or.inl rfl
  · intro s
    simp only [sendB]
    split <;> rfl
  · intro s
    simp only [sendB]
    split
    next h => simp [h]
    next h => simp [h]
  · exact fun s => ⟨rfl, rfl⟩
  · exact fun s => ⟨rfl, rfl⟩
  · exact fun s => ⟨rfl, rfl⟩
  · intro s
    simp only [selectBtnClickB]
    split <;> exact ⟨rfl, rfl⟩
  · intro t s
    simp only [mouseoverB]
    split <;> exact ⟨rfl, rfl⟩

/-- Claim C9: calling `launch_browser` with an absent url while a session
is open first closes the previous session — browser, page and cached
element info all reset — and only then reports the "URL is required"
error; the error path is not atomic. -/
theorem c9_launch_missing_url_closes_previous_session
    (CssObj D : Type) (fresh : D) (s : HostState CssObj D)
    (p : PageSt CssObj D) (h : s.session = some p) :
    (launchBrowserFn none fresh s).1.isError = true ∧
    (launchBrowserFn none fresh s).1.text = "URL is required" ∧
    (launchBrowserFn none fresh s).2.session = none ∧
    (launchBrowserFn none fresh s).2.elementInfo = none := by
  simp [launchBrowserFn, closeBrowserFn, urlFalsy, h]

/-- A concrete open session used to instantiate C9. -/
def c9State : HostState Unit Unit :=
  { session := some { slot := some ⟨"#go", "<b>x</b>", ()⟩, dom := () }
    elementInfo := some ⟨"#go", "<b>x</b>", "css"⟩ }

/-- Witness for C9 at a concrete open session. -/
theorem c9_launch_missing_url_closes_previous_session_witness :
    (launchBrowserFn none () c9State).1.isError = true ∧
    (launchBrowserFn none () c9State).1.text = "URL is required" ∧
    (launchBrowserFn none () c9State).2.session = none ∧
    (launchBrowserFn none () c9State).2.elementInfo = none :=
  c9_launch_missing_url_closes_previous_session Unit Unit () c9State
    { slot := some ⟨"#go", "<b>x</b>", ()⟩, dom := () } rfl

/-- Invariant of commit-free traces: the host cache is empty and any open
page has an empty record slot. -/
def noSelInv {CssObj D : Type} (s : HostState CssObj D) : Prop :=
  s.elementInfo = none ∧ ∀ p, s.session = some p → p.slot = none

theorem hstep_noCommit_inv {CssObj D : Type}
    (stringifyCss : CssObj → String) (injectDom : D → D)
    (applyCssD : String → List (String × String) → D → D)
    (applyHtmlD : String → String → D → D)
    (a : HAct CssObj D) (s : HostState CssObj D)
    (hnc : a.isCommit = false) (h : noSelInv s) :
    noSelInv (hstep stringifyCss injectDom applyCssD applyHtmlD a s) := by
  obtain ⟨hei, hslot⟩ := h
  cases a with
  | launch url fresh =>
      cases hs : s.session with
      | none =>
          simp only [hstep, launchBrowserFn, hs]
          split
          · exact ⟨hei, fun p hp => by rw [hs] at hp; cases hp⟩
          · exact ⟨hei, fun p hp => by
              simp only at hp
              cases hp
              rfl⟩
      | some q =>
          simp only [hstep, launchBrowserFn, hs, closeBrowserFn]
          split
          · exact ⟨rfl, fun p hp => by cases hp⟩
          · exact ⟨rfl, fun p hp => by
              simp only at hp
              cases hp
              rfl⟩
  | inspect =>
      cases hs : s.session with
      | none => simpa [hstep, inspectElementFn, hs] using ⟨hei, hslot⟩
      | some q =>
          refine ⟨by simpa [hstep, inspectElementFn, hs] using hei, ?_⟩
          intro p hp
          simp only [hstep, inspectElementFn, hs] at hp
          cases hp
          exact hslot q hs
  | getInfo =>
      cases hs : s.session with
      | none => simpa [hstep, getElementInfoFn, hs] using ⟨hei, hslot⟩
      | some q =>
          have hq : q.slot = none := hslot q hs
          simpa [hstep, getElementInfoFn, hs, hq] using ⟨hei, hslot⟩
  | modify css html =>
      cases hs : s.session with
      | none => simpa [hstep, modifyElementFn, hs] using ⟨hei, hslot⟩
      | some q =>
          simpa [hstep, modifyElementFn, hs, hei] using ⟨hei, hslot⟩
  | closeB =>
      cases hs : s.session with
      | none => simpa [hstep, closeBrowserFn, hs] using ⟨hei, hslot⟩
      | some q =>
          exact ⟨by simp [hstep, closeBrowserFn, hs], fun p hp => by
            simp [hstep, closeBrowserFn, hs] at hp⟩
  | commit r => cases hnc

theorem hrun_noCommit_inv {CssObj D : Type}
    (stringifyCss : CssObj → String) (injectDom : D → D)
    (applyCssD : String → List (String × String) → D → D)
    (applyHtmlD : String → String → D → D)
    (acts : List (HAct CssObj D)) (s : HostState CssObj D)
    (hfree : ∀ a ∈ acts, a.isCommit = false) (h : noSelInv s) :
    noSelInv (hrun stringifyCss injectDom applyCssD applyHtmlD acts s) := by
  induction acts generalizing s with
  | nil => simpa [hrun] using h
  | cons a acts ih =>
      have h1 := hstep_noCommit_inv stringifyCss injectDom applyCssD
        applyHtmlD a s (hfree a (List.mem_cons_self a acts)) h
      simpa [hrun, List.foldl] using
        ih _ (fun b hb => hfree b (List.mem_cons_of_mem a hb)) h1

/-- The error behavior of `modify_element` in a state whose host cache is
empty: error flag set, state untouched, and the "no element selected"
message whenever a session is open. -/
theorem modify_no_cache {CssObj D : Type}
    (applyCssD : String → List (String × String) → D → D)
    (applyHtmlD : String → String → D → D)
    (css : Option (List (String × String))) (html : Option String)
    (s : HostState CssObj D) (hei : s.elementInfo = none) :
    (modifyElementFn applyCssD applyHtmlD css html s).1.isError = true ∧
    (modifyElementFn applyCssD applyHtmlD css html s).2 = s ∧
    (∀ p, s.session = some p →
      (modifyElementFn applyCssD applyHtmlD css html s).1.text =
        noElementText) := by
  cases hs : s.session with
  | none => simp [modifyElementFn, hs]
  | some q => simp [modifyElementFn, hs, hei]

/-- Claim C7: after any commit-free trace of tool calls from server
start, calling `modify_element` reports an error without changing any
state — in particular the page document is unchanged — and, whenever a
session is open, the error text is the "no element selected" message. -/
theorem c7_modify_before_any_commit (CssObj D : Type)
    (stringifyCss : CssObj → String) (injectDom : D → D)
    (applyCssD : String → List (String × String) → D → D)
    (applyHtmlD : String → String → D → D)
    (acts : List (HAct CssObj D))
    (css : Option (List (String × String))) (html : Option String)
    (hfree : ∀ a ∈ acts, a.isCommit = false) :
    (modifyElementFn applyCssD applyHtmlD css html
        (hrun stringifyCss injectDom applyCssD applyHtmlD acts
          hinit)).1.isError = true ∧
    (modifyElementFn applyCssD applyHtmlD css html
        (hrun stringifyCss injectDom applyCssD applyHtmlD acts hinit)).2 =
      hrun stringifyCss injectDom applyCssD applyHtmlD acts hinit ∧
    (∀ p, (hrun stringifyCss injectDom applyCssD applyHtmlD acts
        hinit).session = some p →
      (modifyElementFn applyCssD applyHtmlD css html
          (hrun stringifyCss injectDom applyCssD applyHtmlD acts
            hinit)).1.text = noElementText) := by
  have hinv := hrun_noCommit_inv stringifyCss injectDom applyCssD applyHtmlD
    acts hinit hfree ⟨rfl, fun p hp => by cases hp⟩
  exact modify_no_cache applyCssD applyHtmlD css html _ hinv.1

/-- Witness for C7: launch then inject, never commit, then try to
modify. -/
theorem c7_modify_before_any_commit_witness :
    (modifyElementFn (fun _ _ (d : Unit) => d) (fun _ _ d => d)
        (some [("color", "red")]) none
        (hrun (fun _ => "") id (fun _ _ d => d) (fun _ _ d => d)
          [HAct.launch (some "http://example.com") (), HAct.inspect]
          (hinit : HostState Unit Unit))).1.isError = true ∧
    (modifyElementFn (fun _ _ (d : Unit) => d) (fun _ _ d => d)
        (some [("color", "red")]) none
        (hrun (fun _ => "") id (fun _ _ d => d) (fun _ _ d => d)
          [HAct.launch (some "http://example.com") (), HAct.inspect]
          (hinit : HostState Unit Unit))).2 =
      hrun (fun _ => "") id (fun _ _ d => d) (fun _ _ d => d)
        [HAct.launch (some "http://example.com") (), HAct.inspect]
        (hinit : HostState Unit Unit) :=
  ⟨(c7_modify_before_any_commit Unit Unit (fun _ => "") id
      (fun _ _ d => d) (fun _ _ d => d)
      [HAct.launch (some "http://example.com") (), HAct.inspect]
      (some [("color", "red")]) none (by decide)).1,
   (c7_modify_before_any_commit Unit Unit (fun _ => "") id
      (fun _ _ d => d) (fun _ _ d => d)
      [HAct.launch (some "http://example.com") (), HAct.inspect]
      (some [("color", "red")]) none (by decide)).2.1⟩

/-- Invariant tied to the success flag of `giStep`: while no
`get_element_info` has succeeded since the last launch/close boundary the
host cache is empty, and a non-empty host cache implies an open
session. -/
def giInv {CssObj D : Type} (s : HostState CssObj D) (f : Bool) : Prop :=
  (f = false → s.elementInfo = none) ∧
    (∀ i, s.elementInfo = some i → ∃ p, s.session = some p)

theorem giStep_inv {CssObj D : Type}
    (stringifyCss : CssObj → String) (injectDom : D → D)
    (applyCssD : String → List (String × String) → D → D)
    (applyHtmlD : String → String → D → D)
    (a : HAct CssObj D) (s : HostState CssObj D) (f : Bool)
    (h : giInv s f) :
    giInv (giStep stringifyCss injectDom applyCssD applyHtmlD (s, f) a).1
      (giStep stringifyCss injectDom applyCssD applyHtmlD (s, f) a).2 := by
  obtain ⟨h1, h2⟩ := h
  have heiNone : s.session = none → s.elementInfo = none := by
    intro hs
    cases hei : s.elementInfo with
    | none => rfl
    | some i =>
        obtain ⟨p, hp⟩ := h2 i hei
        rw [hs] at hp
        cases hp
  cases a with
  | launch url fresh =>
      cases hs : s.session with
      | none =>
          have he := heiNone hs
          simp only [giStep, hstep, launchBrowserFn, hs]
          split
          · refine ⟨fun _ => he, fun i hi => ?_⟩
            simp [he] at hi
          · exact ⟨fun _ => he, fun i hi => ⟨_, rfl⟩⟩
      | some q =>
          simp only [giStep, hstep, launchBrowserFn, hs, closeBrowserFn]
          split
          · exact ⟨fun _ => rfl, fun i hi => by cases hi⟩
          · exact ⟨fun _ => rfl, fun i hi => ⟨_, rfl⟩⟩
  | inspect =>
      cases hs : s.session with
      | none => simpa [giStep, hstep, inspectElementFn, hs] using ⟨h1, h2⟩
      | some q =>
          constructor
          · intro hf
            have he := h1 hf
            simpa [giStep, hstep, inspectElementFn, hs] using he
          · intro i hi
            simp only [giStep, hstep, inspectElementFn, hs] at hi ⊢
            exact ⟨_, rfl⟩
  | getInfo =>
      cases hs : s.session with
      | none =>
          simpa [giStep, hstep, getElementInfoFn, giSucceeds, hs]
            using ⟨h1, h2⟩
      | some q =>
          cases hq : q.slot with
          | none =>
              simpa [giStep, hstep, getElementInfoFn, giSucceeds, hs, hq]
                using ⟨h1, h2⟩
          | some r =>
              simp only [giStep, hstep, getElementInfoFn, giSucceeds, hs, hq]
              exact ⟨fun hf => by simp at hf, fun i hi => ⟨_, rfl⟩⟩
  | modify css html =>
      cases hs : s.session with
      | none => simpa [giStep, hstep, modifyElementFn, hs] using ⟨h1, h2⟩
      | some q =>
          cases hei : s.elementInfo with
          | none =>
              simpa [giStep, hstep, modifyElementFn, hs, hei] using ⟨h1, h2⟩
          | some info =>
              simp only [giStep, hstep, modifyElementFn, hs, hei]
              refine ⟨fun hf => ?_, fun i hi => ⟨_, rfl⟩⟩
              have := h1 hf
              rw [hei] at this
              cases this
  | closeB =>
      cases hs : s.session with
      | none =>
          have he := heiNone hs
          constructor
          · intro _
            simpa [giStep, hstep, closeBrowserFn, hs] using he
          · intro i hi
            simp only [giStep, hstep, closeBrowserFn, hs] at hi
            simp [he] at hi
      | some q =>
          exact ⟨fun _ => by simp [giStep, hstep, closeBrowserFn, hs],
            fun i hi => by simp [giStep, hstep, closeBrowserFn, hs] at hi⟩
  | commit r =>
      cases hs : s.session with
      | none => simpa [giStep, hstep, commitRecordFn, hs] using ⟨h1, h2⟩
      | some q =>
          constructor
          · intro hf
            have he := h1 hf
            simpa [giStep, hstep, commitRecordFn, hs] using he
          · intro i hi
            simp only [giStep, hstep, commitRecordFn, hs] at hi ⊢
            exact ⟨_, rfl⟩

theorem giFold_inv {CssObj D : Type}
    (stringifyCss : CssObj → String) (injectDom : D → D)
    (applyCssD : String → List (String × String) → D → D)
    (applyHtmlD : String → String → D → D)
    (acts : List (HAct CssObj D)) (s : HostState CssObj D) (f : Bool)
    (h : giInv s f) :
    giInv
      (acts.foldl (giStep stringifyCss injectDom applyCssD applyHtmlD)
        (s, f)).1
      (acts.foldl (giStep stringifyCss injectDom applyCssD applyHtmlD)
        (s, f)).2 := by
  induction acts generalizing s f with
  | nil => simpa using h
  | cons a acts ih =>
      have h1 := giStep_inv stringifyCss injectDom applyCssD applyHtmlD
        a s f h
      simpa [List.foldl] using
        ih (giStep stringifyCss injectDom applyCssD applyHtmlD (s, f) a).1
          (giStep stringifyCss injectDom applyCssD applyHtmlD (s, f) a).2 h1

theorem giFold_fst {CssObj D : Type}
    (stringifyCss : CssObj → String) (injectDom : D → D)
    (applyCssD : String → List (String × String) → D → D)
    (applyHtmlD : String → String → D → D)
    (acts : List (HAct CssObj D)) (s : HostState CssObj D) (f : Bool) :
    (acts.foldl (giStep stringifyCss injectDom applyCssD applyHtmlD)
      (s, f)).1 =
      hrun stringifyCss injectDom applyCssD applyHtmlD acts s := by
  induction acts generalizing s f with
  | nil => rfl
  | cons a acts ih =>
      simpa [List.foldl, hrun, giStep] using
        ih (hstep stringifyCss injectDom applyCssD applyHtmlD a s) _

/-- Claim C10: after any trace of tool calls and in-page commits from
server start in which no `get_element_info` call has succeeded since the
last `launch_browser` or `close_browser` (tracked by the fold flag),
`modify_element` finds an empty host cache, reports an error without
changing any state — even if a Selection Record sits committed in the
page — and, whenever a session is open, the error text is the
"no element selected" message. -/
theorem c10_modify_without_recent_getinfo (CssObj D : Type)
    (stringifyCss : CssObj → String) (injectDom : D → D)
    (applyCssD : String → List (String × String) → D → D)
    (applyHtmlD : String → String → D → D)
    (acts : List (HAct CssObj D))
    (css : Option (List (String × String))) (html : Option String)
    (hflag : (acts.foldl
        (giStep stringifyCss injectDom applyCssD applyHtmlD)
        (hinit, false)).2 = false) :
    (hrun stringifyCss injectDom applyCssD applyHtmlD acts
      hinit).elementInfo = none ∧
    (modifyElementFn applyCssD applyHtmlD css html
        (hrun stringifyCss injectDom applyCssD applyHtmlD acts
          hinit)).1.isError = true ∧
    (modifyElementFn applyCssD applyHtmlD css html
        (hrun stringifyCss injectDom applyCssD applyHtmlD acts hinit)).2 =
      hrun stringifyCss injectDom applyCssD applyHtmlD acts hinit ∧
    (∀ p, (hrun stringifyCss injectDom applyCssD applyHtmlD acts
        hinit).session = some p →
      (modifyElementFn applyCssD applyHtmlD css html
          (hrun stringifyCss injectDom applyCssD applyHtmlD acts
            hinit)).1.text = noElementText) := by
  have hinv := giFold_inv stringifyCss injectDom applyCssD applyHtmlD acts
    hinit false ⟨fun _ => rfl, fun i hi => by cases hi⟩
  rw [giFold_fst stringifyCss injectDom applyCssD applyHtmlD acts hinit
    false] at hinv
  have hei := hinv.1 hflag
  have h := modify_no_cache applyCssD applyHtmlD css html _ hei
  exact ⟨hei, h.1, h.2.1, h.2.2⟩

/-- Witness for C10: launch, inject, and a committed in-page record, but
no `get_element_info` — `modify_element` still errors and changes
nothing. -/
theorem c10_modify_without_recent_getinfo_witness :
    (hrun (fun (_ : Unit) => "") id (fun _ _ d => d)
        (fun _ _ d => d)
        [HAct.launch (some "http://example.com") (), HAct.inspect,
          HAct.commit ⟨"#go", "<b>x</b>", ()⟩] hinit).elementInfo = none ∧
    (modifyElementFn (fun _ _ (d : Unit) => d) (fun _ _ d => d)
        (some [("color", "red")]) none
        (hrun (fun _ => "") id (fun _ _ d => d) (fun _ _ d => d)
          [HAct.launch (some "http://example.com") (), HAct.inspect,
            HAct.commit ⟨"#go", "<b>x</b>", ()⟩] hinit)).1.isError = true ∧
    (modifyElementFn (fun _ _ (d : Unit) => d) (fun _ _ d => d)
        (some [("color", "red")]) none
        (hrun (fun _ => "") id (fun _ _ d => d) (fun _ _ d => d)
          [HAct.launch (some "http://example.com") (), HAct.inspect,
            HAct.commit ⟨"#go", "<b>x</b>", ()⟩] hinit)).2 =
      hrun (fun _ => "") id (fun _ _ d => d) (fun _ _ d => d)
        [HAct.launch (some "http://example.com") (), HAct.inspect,
          HAct.commit ⟨"#go", "<b>x</b>", ()⟩] hinit :=
  ⟨(c10_modify_without_recent_getinfo Unit Unit (fun _ => "") id
      (fun _ _ d => d) (fun _ _ d => d)
      [HAct.launch (some "http://example.com") (), HAct.inspect,
        HAct.commit ⟨"#go", "<b>x</b>", ()⟩]
      (some [("color", "red")]) none rfl).1,
   (c10_modify_without_recent_getinfo Unit Unit (fun _ => "") id
      (fun _ _ d => d) (fun _ _ d => d)
      [HAct.launch (some "http://example.com") (), HAct.inspect,
        HAct.commit ⟨"#go", "<b>x</b>", ()⟩]
      (some [("color", "red")]) none rfl).2.1,
   (c10_modify_without_recent_getinfo Unit Unit (fun _ => "") id
      (fun _ _ d => d) (fun _ _ d => d)
      [HAct.launch (some "http://example.com") (), HAct.inspect,
        HAct.commit ⟨"#go", "<b>x</b>", ()⟩]
      (some [("color", "red")]) none rfl).2.2.1⟩

theorem mem_of_getElem?_dom : ∀ (l : List Dom) (i : Nat) (a : Dom),
    l[i]? = some a → a ∈ l := by
  intro l
  induction l with
  | nil => intro i a h; cases h
  | cons x xs ih =>
      intro i a h
      cases i with
      | zero =>
          simp only [List.getElem?_cons_zero] at h
          cases h
          exact List.mem_cons_self x xs
      | succ j =>
          simp only [List.getElem?_cons_succ] at h
          exact List.mem_cons_of_mem x (ih j a h)

theorem sameTagCount_pos (parent el : Dom) (i : Nat)
    (hel : parent.children[i]? = some el) :
    0 < sameTagCount el.tag parent.children := by
  have hmem : el ∈ parent.children := mem_of_getElem?_dom _ i el hel
  exact List.length_pos_of_mem (List.mem_filter.mpr ⟨hmem, by simp⟩)

/-- Every node along the walk from the addressed element up to the root
has an empty id and is not a `body` — the regime in which the second
revision's recursion neither short-circuits on an ancestor id nor stops
at `body`. -/
def cleanPathB (root : Dom) : List Nat → Bool
  | [] => root.idAttr = "" && root.tag ≠ "body"
  | i :: p =>
      match nodeAt p.reverse root with
      | none => false
      | some parent =>
          match parent.children[i]? with
          | none => false
          | some el =>
              (el.idAttr = "" && el.tag ≠ "body") && cleanPathB root p

/-- Claim C6, amended: the floating-icon engine's `getUniqueSelector`
behaves exactly as the spec's walk describes — at a level whose parent
has more than one child of the element's tag it extends the parent's
selector with ` > tag:nth-child(k)`, `k` the 1-based position among the
parent's children of that tag, at an unambiguous level it extends with
` > tag` alone, and on id-free, body-free paths it coincides with the
spec's walk-up reference — whereas the primary engine's `getSelector`
for an element with no id and no classes inspects only the immediate
parent, returning the bare tag with at most a single `:nth-child` index
and never an ancestor path. -/
theorem c6_walk_up_characterization :
    (∀ (root : Dom) (p : List Nat) (i : Nat) (parent el : Dom),
      nodeAt p.reverse root = some parent → parent.children[i]? = some el →
      el.idAttr = "" → el.tag ≠ "body" →
      sameTagCount el.tag parent.children > 1 →
      getUniqueSelectorB root (i :: p) =
        (getUniqueSelectorB root p).map
          (fun ps => ps ++ " > " ++ el.tag ++ ":nth-child(" ++
            toString (sameTagIndex el.tag parent.children i + 1) ++ ")")) ∧
    (∀ (root : Dom) (p : List Nat) (i : Nat) (parent el : Dom),
      nodeAt p.reverse root = some parent → parent.children[i]? = some el →
      el.idAttr = "" → el.tag ≠ "body" →
      sameTagCount el.tag parent.children = 1 →
      getUniqueSelectorB root (i :: p) =
        (getUniqueSelectorB root p).map
          (fun ps => ps ++ " > " ++ el.tag)) ∧
    (∀ (root : Dom) (p : List Nat) (i : Nat) (parent el : Dom),
      nodeAt p.reverse root = some parent → parent.children[i]? = some el →
      el.idAttr = "" → el.classes = [] →
      getSelectorA root (i :: p) =
        some (if sameTagCount el.tag parent.children > 1 then
          el.tag ++ ":nth-child(" ++
            toString (sameTagIndex el.tag parent.children i + 1) ++ ")"
        else el.tag)) ∧
    (∀ (root : Dom) (rp : List Nat), cleanPathB root rp = true →
      getUniqueSelectorB root rp = specWalkUpSelector root rp) := by
  refine ⟨?_, ?_, ?_, ?_⟩
  · intro root p i parent el hpar hel hid hbody hcount
    have hne : ¬ sameTagCount el.tag parent.children = 1 := by omega
    simp only [getUniqueSelectorB, hpar, hel]
    rw [if_neg (by simp [hid]), if_neg hbody]
    cases hps : getUniqueSelectorB root p
    · rfl
    · simp [hne]
  · intro root p i parent el hpar hel hid hbody hone
    simp only [getUniqueSelectorB, hpar, hel]
    rw [if_neg (by simp [hid]), if_neg hbody]
    cases hps : getUniqueSelectorB root p
    · rfl
    · simp [hone]
  · intro root p i parent el hpar hel hid hcls
    simp only [getSelectorA, hpar, hel]
    rw [if_neg (by simp [hid]), if_neg (by simp [hcls])]
    split <;> rfl
  · intro root rp
    induction rp with
    | nil =>
        intro h
        simp only [cleanPathB, Bool.and_eq_true, decide_eq_true_eq] at h
        obtain ⟨hid, hbody⟩ := h
        simp only [getUniqueSelectorB, specWalkUpSelector]
        rw [if_neg (by simp [hid]), if_neg (by simpa using hbody)]
    | cons i p ih =>
        intro h
        simp only [cleanPathB] at h
        split at h
        · cases h
        next parent hpar =>
          split at h
          · cases h
          next el hel =>
            simp only [Bool.and_eq_true, decide_eq_true_eq] at h
            obtain ⟨⟨hid, hbody⟩, hclean⟩ := h
            have hrec := ih hclean
            have hpos := sameTagCount_pos parent el i hel
            simp only [getUniqueSelectorB, specWalkUpSelector, hpar, hel]
            rw [if_neg (by simp [hid]), if_neg (by simpa using hbody), hrec]
            cases hps : specWalkUpSelector root p with
            | none => rfl
            | some ps =>
                by_cases hone : sameTagCount el.tag parent.children = 1
                · have hng : ¬ sameTagCount el.tag parent.children > 1 := by
                    omega
                  simp [hone, hng]
                · have hg : sameTagCount el.tag parent.children > 1 := by
                    omega
                  simp [hone, hg]

/-- Witness for the amended C6 at the demo tree: the second `span` of the
second `div` (an ambiguous level over an ambiguous level). -/
theorem c6_walk_up_characterization_witness :
    getUniqueSelectorB selectorDemoTree [1, 1] =
      (getUniqueSelectorB selectorDemoTree [1]).map
        (fun ps => ps ++ " > " ++
          (Dom.mk "span" "" [] ([] : List Dom)).tag ++ ":nth-child(" ++
          toString (sameTagIndex (Dom.mk "span" "" [] ([] : List Dom)).tag
            (Dom.mk "div" ""  []
              [Dom.mk "span" "" [] [], Dom.mk "span" "" [] []]).children 1
            + 1) ++ ")") ∧
    getUniqueSelectorB selectorDemoTree [1, 1] =
      specWalkUpSelector selectorDemoTree [1, 1] :=
  ⟨c6_walk_up_characterization.1 selectorDemoTree [1] 1
      (Dom.mk "div" "" [] [Dom.mk "span" "" [] [], Dom.mk "span" "" [] []])
      (Dom.mk "span" "" [] []) rfl rfl rfl (by decide) (by decide),
   c6_walk_up_characterization.2.2.2 selectorDemoTree [1, 1] (by decide)⟩

end BrowserInspector
